import Mathlib

/-!
Verification of the procedural galaxy scene (src/components/Scene.tsx).

The file shallowly embeds the algorithmic core of the scene:
* `generateGalaxyData` — the spiral-galaxy point-cloud generator (lines 35-71),
  with the ambient `Math.random()` calls made explicit as a stream of draws in
  `[0,1)` and JavaScript failure modes made explicit in an `Option` result
  (`new Float32Array(count * 3)` throws a `RangeError` for negative `count`;
  IEEE division `r / radius` is non-finite when `radius = 0`, modelled by
  `jsDiv` returning `none`).
* the per-frame update laws: galaxy-layer opacity dimming (lines 87-96),
  the orbital sub-systems' rigid orbit rotation (lines 168-173 and 354-359)
  and entrance/exit scale convergence (lines 192-196 and 382-386),
  the camera rig's desired-position table (lines 522-548), the hover-focus
  arbiter `getCurrentFocus` (lines 557-561), and the pointer-enter/leave
  handlers guarded by the explore flag (lines 208-219 and 398-409).

Machine floats are idealised as real numbers; `THREE.MathUtils.lerp` is the
unclamped affine interpolation it is in three.js.
-/

namespace Scene

noncomputable section

/-- THREE.MathUtils.lerp: `x + (y - x) * t`, with no clamping of `t`. -/
def lerp (x y t : ℝ) : ℝ := x + (y - x) * t

/-- An RGB colour as three real channels in the style of THREE.Color. -/
structure RGB where
  r : ℝ
  g : ℝ
  b : ℝ

/-- The option bag taken by `generateGalaxyData` (the fields of GALAXY_PARAMS).
`randomnessPower` is a natural number because every call site passes 3. -/
structure GalaxyOptions where
  radius : ℝ
  branches : ℕ
  spin : ℝ
  randomness : ℝ
  randomnessPower : ℕ
  insideColor : RGB
  outsideColor : RGB

/-- GALAXY_PARAMS from Scene.tsx; the colours are the channels of
THREE.Color('#ff6030') and THREE.Color('#1b3984'). -/
def GALAXY_PARAMS : GalaxyOptions where
  radius := 5
  branches := 3
  spin := 1
  randomness := 0.2
  randomnessPower := 3
  insideColor := ⟨255 / 255, 96 / 255, 48 / 255⟩
  outsideColor := ⟨27 / 255, 57 / 255, 132 / 255⟩

/-- The `Math.random()` draws consumed for one particle, in the order the code
makes them: the radius draw, then for each axis a magnitude draw and a sign
draw (`Math.random() < 0.5 ? 1 : -1`, a fair bit), then the three colour
jitter draws. -/
structure PointDraws where
  uR : ℝ
  uX : ℝ
  sX : Bool
  uY : ℝ
  sY : Bool
  uZ : ℝ
  sZ : Bool
  jR : ℝ
  jG : ℝ
  jB : ℝ

/-- A uniform draw lies in `[0, 1)`, as `Math.random()` guarantees. -/
def unit01 (u : ℝ) : Prop := 0 ≤ u ∧ u < 1

/-- All uniform draws of a particle are in `[0, 1)`. -/
def PointDraws.Valid (d : PointDraws) : Prop :=
  unit01 d.uR ∧ unit01 d.uX ∧ unit01 d.uY ∧ unit01 d.uZ ∧
    unit01 d.jR ∧ unit01 d.jG ∧ unit01 d.jB

/-- The sign factor `Math.random() < 0.5 ? 1 : -1`. -/
def signOf (b : Bool) : ℝ := if b then 1 else -1

/-- `const r = Math.random() * radius` (line 46). -/
def sampleRadius (opts : GalaxyOptions) (d : PointDraws) : ℝ := d.uR * opts.radius

/-- `branchAngle = ((i % branches) / branches) * Math.PI * 2` (line 48). -/
def branchAngle (opts : GalaxyOptions) (i : ℕ) : ℝ :=
  ((i % opts.branches : ℕ) : ℝ) / (opts.branches : ℝ) * (2 * Real.pi)

/-- `branchAngle + spinAngle` with `spinAngle = r * spin` (lines 47-48). -/
def pointAngle (opts : GalaxyOptions) (i : ℕ) (d : PointDraws) : ℝ :=
  branchAngle opts i + sampleRadius opts d * opts.spin

/-- One axis offset:
`Math.pow(Math.random(), randomnessPower) * (sign) * randomness * r` (lines 50-52). -/
def randomOffset (opts : GalaxyOptions) (u : ℝ) (s : Bool) (r : ℝ) : ℝ :=
  u ^ opts.randomnessPower * signOf s * opts.randomness * r

/-- The position triple written at index i (lines 54-56). -/
def galaxyPosition (opts : GalaxyOptions) (i : ℕ) (d : PointDraws) : ℝ × ℝ × ℝ :=
  (Real.cos (pointAngle opts i d) * sampleRadius opts d
      + randomOffset opts d.uX d.sX (sampleRadius opts d),
   randomOffset opts d.uY d.sY (sampleRadius opts d),
   Real.sin (pointAngle opts i d) * sampleRadius opts d
      + randomOffset opts d.uZ d.sZ (sampleRadius opts d))

/-- JavaScript IEEE division as used in `r / radius`: a zero divisor produces a
non-finite value (here always NaN, since `r = uR * 0 = 0` whenever
`radius = 0`), modelled as `none`. -/
def jsDiv (a b : ℝ) : Option ℝ := if b = 0 then none else some (a / b)

/-- One colour channel: `THREE.Color.lerp` is the componentwise unclamped lerp,
and the subsequent `+= (Math.random() - 0.5) * 0.05` is the jitter (lines 58-63). -/
def mixedChannel (cIn cOut t j : ℝ) : ℝ := lerp cIn cOut t + (j - 0.5) * 0.05

/-- The colour triple written at index i (lines 58-67); `none` is a NaN channel. -/
def galaxyColor (opts : GalaxyOptions) (d : PointDraws) :
    Option ℝ × Option ℝ × Option ℝ :=
  ((jsDiv (sampleRadius opts d) opts.radius).map fun t =>
      mixedChannel opts.insideColor.r opts.outsideColor.r t d.jR,
   (jsDiv (sampleRadius opts d) opts.radius).map fun t =>
      mixedChannel opts.insideColor.g opts.outsideColor.g t d.jG,
   (jsDiv (sampleRadius opts d) opts.radius).map fun t =>
      mixedChannel opts.insideColor.b opts.outsideColor.b t d.jB)

/-- The `{ positions, colors }` record returned by `generateGalaxyData`. -/
structure GalaxyData where
  positions : List (ℝ × ℝ × ℝ)
  colors : List (Option ℝ × Option ℝ × Option ℝ)

/-- `generateGalaxyData(count, options)` (lines 35-71). `count` is an integer as
in JavaScript; `new Float32Array(count * 3)` throws a RangeError for negative
`count`, modelled as `none`. Otherwise the loop runs for `i = 0, …, count-1`,
consuming the draws of index `i`. -/
def generateGalaxyData (count : ℤ) (opts : GalaxyOptions) (draws : ℕ → PointDraws) :
    Option GalaxyData :=
  if count < 0 then none
  else some
    { positions := (List.range count.toNat).map fun i => galaxyPosition opts i (draws i)
      colors := (List.range count.toNat).map fun i => galaxyColor opts (draws i) }

/-- The flat `Float32Array` layout of the positions (stride 3). -/
def GalaxyData.flatPositions (g : GalaxyData) : List ℝ :=
  (g.positions.map fun p => [p.1, p.2.1, p.2.2]).flatten

/-- The flat `Float32Array` layout of the colours (stride 3). -/
def GalaxyData.flatColors (g : GalaxyData) : List (Option ℝ) :=
  (g.colors.map fun c => [c.1, c.2.1, c.2.2]).flatten

/-- Galaxy star layer dim target: `dimmed ? 0.1 : 1.0` (line 88). -/
def targetOpacityStars (dimmed : Bool) : ℝ := if dimmed then 0.1 else 1.0

/-- Galaxy dust layer dim target: `dimmed ? 0.02 : 0.4` (line 89). -/
def targetOpacityDust (dimmed : Bool) : ℝ := if dimmed then 0.02 else 0.4

/-- Per-frame opacity update `lerp(opacity, target, delta * 4)` (lines 92 and 95). -/
def opacityStep (o target dt : ℝ) : ℝ := lerp o target (dt * 4)

/-- The per-frame orbit update of a sub-system's position about the vertical
axis (lines 169-173 and 355-359): `angle = dt * speed`, then a 2D rotation of
the cached `(x, z)` pair. -/
def orbitStep (dt speed x z : ℝ) : ℝ × ℝ :=
  (x * Real.cos (dt * speed) - z * Real.sin (dt * speed),
   x * Real.sin (dt * speed) + z * Real.cos (dt * speed))

/-- WisdomSystem rotation speed: `active ? 0.1 : 0.05` (line 166). -/
def wisdomRotationSpeed (active : Bool) : ℝ := if active then 0.1 else 0.05

/-- GoldenSystem rotation speed: `active ? 0.12 : 0.08` (line 352). -/
def goldenRotationSpeed (active : Bool) : ℝ := if active then 0.12 else 0.08

/-- Entrance/exit scale target: `active ? 1 : 0.001` (lines 193 and 383). -/
def scaleTarget (active : Bool) : ℝ := if active then 1 else 0.001

/-- One scale tick: `lerp(currentScale, targetScale, delta * 3)` (lines 195 and 385). -/
def scaleStep (active : Bool) (dt s : ℝ) : ℝ := lerp s (scaleTarget active) (dt * 3)

/-- The scale sequence started at the near-zero epsilon 0.001 and driven every
tick with `explore = true` and a fixed `dt`. -/
def scaleSeq (dt : ℝ) : ℕ → ℝ
  | 0 => 0.001
  | n + 1 => scaleStep true dt (scaleSeq dt n)

/-- The desired camera position computed by CameraRig each frame
(lines 523-544) as a function of the explore flag, the focus target and the
normalised pointer. In explore mode the pointer nudge is added to the selected
base; in orbit mode the position is `(mouse.x * 5, mouse.y * 2 + 6, 12)`. -/
def desiredCameraPos (active : Bool) (focusTarget : String) (mouseX mouseY : ℝ) :
    ℝ × ℝ × ℝ :=
  if active then
    let base : ℝ × ℝ × ℝ :=
      if focusTarget = "wisdom" then (-1, 1.2, 3.8)
      else if focusTarget = "golden" then (1, 1.0, 4.0)
      else (0, 1.5, 3.5)
    (base.1 + mouseX * 0.1, base.2.1 + mouseY * 0.1, base.2.2)
  else
    (mouseX * 5, mouseY * 2 + 6, 12)

/-- The composer's focus arbiter (lines 557-561). -/
def getCurrentFocus (hoveringWisdom hoveringGolden : Bool) : String :=
  if hoveringWisdom then "wisdom" else if hoveringGolden then "golden" else ""

/-- A pointer event on a sub-system's hit volume. -/
inductive PointerEvent where
  | over
  | out

/-- The effect of one pointer event on a sub-system's hover flag: both
`handlePointerOver` and `handlePointerOut` early-return when `!active`
(lines 208-219 and 398-409), otherwise they report `true` resp. `false`. -/
def hoverStep (active : Bool) (hover : Bool) : PointerEvent → Bool
  | PointerEvent.over => if active then true else hover
  | PointerEvent.out => if active then false else hover

/-- All-zero draw stream (every uniform draw 0, every sign draw heads). -/
def drawsZero : ℕ → PointDraws := fun _ => ⟨0, 0, true, 0, true, 0, true, 0, 0, 0⟩

/-- GALAXY_PARAMS with a degenerate zero radius. -/
def zeroRadiusParams : GalaxyOptions := { GALAXY_PARAMS with radius := 0 }

/-- An adversarial draw stream: the radial draw puts a point at `r = 19π/12`
(for index `i ≡ 1 mod 3` the branch angle is `2π/3`, so with spin 1 the total
angle is `2π/3 + 19π/12 = 9π/4`, i.e. 45 degrees), and both horizontal offset
draws are near-maximal with outward signs. -/
def cexDraws : ℕ → PointDraws := fun _ =>
  { uR := 19 * Real.pi / 60, uX := 0.98, sX := true, uY := 0, sY := true,
    uZ := 0.98, sZ := true, jR := 0, jG := 0, jB := 0 }

/-- Claim C7: with explore inactive the desired camera position is independent
of the focus target, and equals `(mouse.x * 5, mouse.y * 2 + 6, 12)`. -/
theorem claim_C7_orbit_camera_ignores_focus (f₁ f₂ : String) (mx my : ℝ) :
    desiredCameraPos false f₁ mx my = desiredCameraPos false f₂ mx my ∧
      desiredCameraPos false f₁ mx my = (mx * 5, my * 2 + 6, 12) :=
  ⟨rfl, rfl⟩

/-- Claim C9: whenever the Wisdom hover flag is set, `getCurrentFocus` returns
"wisdom" regardless of the Golden hover flag, so Wisdom takes fixed
precedence over Golden. -/
theorem claim_C9_wisdom_precedence (hoveringGolden : Bool) :
    getCurrentFocus true hoveringGolden = "wisdom" := rfl

/-- Claim C10: a pointer-leave received while explore is inactive leaves the
hover flag unchanged, and indeed any sequence of pointer events processed
while explore is inactive preserves the flag, so a flag set during explore
mode survives until a pointer-leave arrives in explore mode again. -/
theorem claim_C10_hover_frozen_outside_explore (h : Bool) (es : List PointerEvent) :
    hoverStep false h PointerEvent.out = h ∧ es.foldl (hoverStep false) h = h := by
  refine ⟨rfl, ?_⟩
  induction es generalizing h with
  | nil => rfl
  | cons e tl ih => cases e <;> exact ih h

/-- Claim C4: the per-frame orbit rotation about the vertical axis preserves
the horizontal distance from the origin exactly (in the real-number model the
floating-point tolerance of the claim sharpens to equality), for any `dt` and
any rotation speed. -/
theorem claim_C4_orbit_preserves_radius (dt speed x z : ℝ) :
    (orbitStep dt speed x z).1 ^ 2 + (orbitStep dt speed x z).2 ^ 2 = x ^ 2 + z ^ 2 ∧
      Real.sqrt ((orbitStep dt speed x z).1 ^ 2 + (orbitStep dt speed x z).2 ^ 2) =
        Real.sqrt (x ^ 2 + z ^ 2) := by
  have h : Real.cos (dt * speed) ^ 2 + Real.sin (dt * speed) ^ 2 = 1 :=
    Real.cos_sq_add_sin_sq (dt * speed)
  have hmain : (orbitStep dt speed x z).1 ^ 2 + (orbitStep dt speed x z).2 ^ 2 =
      x ^ 2 + z ^ 2 := by
    simp only [orbitStep]
    linear_combination (x ^ 2 + z ^ 2) * h
  exact ⟨hmain, by rw [hmain]⟩

/-- Claim C8 counterexample: a negative `dt` is not a no-op — starting from a
fully opaque star layer with the dim target active, one update with
`dt = -1` moves the opacity from 1 to 4.6. -/
theorem claim_C8_counterexample :
    opacityStep 1 (targetOpacityStars true) (-1) ≠ 1 := by
  norm_num [opacityStep, targetOpacityStars, lerp]

/-- Claim C8 amended: a zero `dt` is a no-op, but the lerp factor is not
clamped, so any negative `dt` changes the opacity whenever it differs from
its target. -/
theorem claim_C8_amended (o target dt : ℝ) :
    opacityStep o target 0 = o ∧
      (dt < 0 → o ≠ target → opacityStep o target dt ≠ o) := by
  constructor
  · simp [opacityStep, lerp]
  · intro hdt hne hEq
    have h1 : (target - o) * (dt * 4) = 0 := by
      simp only [opacityStep, lerp] at hEq
      linarith
    rcases mul_eq_zero.mp h1 with h | h
    · have hto : target = o := sub_eq_zero.mp h
      exact hne hto.symm
    · have hdt0 : dt = 0 := by linarith
      exact absurd hdt0 (by linarith)

/-- Claim C8 witness: the amended statement at opacity 1, the active dim
target 0.1, and `dt = -1`. -/
theorem claim_C8_witness :
    opacityStep 1 (targetOpacityStars true) 0 = 1 ∧
      opacityStep 1 (targetOpacityStars true) (-1) ≠ 1 :=
  ⟨(claim_C8_amended 1 (targetOpacityStars true) (-1)).1,
   (claim_C8_amended 1 (targetOpacityStars true) (-1)).2 (by norm_num)
     (by norm_num [targetOpacityStars])⟩

/-- Claim C3 counterexample: with the fixed positive tick `dt = 1/2` the lerp
factor is `3/2`, so from the epsilon start the scale overshoots to 1.4995
after one tick and then decreases — the sequence is neither monotone nor
bounded near 1. -/
theorem claim_C3_counterexample :
    (0 : ℝ) < 1 / 2 ∧ scaleSeq (1 / 2) 2 < scaleSeq (1 / 2) 1 ∧
      (1.4 : ℝ) < scaleSeq (1 / 2) 1 := by
  norm_num [scaleSeq, scaleStep, scaleTarget, lerp]

/-- Distance of the driven scale from the target 1 contracts by the factor
`1 - dt * 3` each tick. -/
lemma scaleSeq_sub_one (dt : ℝ) (n : ℕ) :
    1 - scaleSeq dt n = (1 - dt * 3) ^ n * (1 - 0.001) := by
  induction n with
  | zero => norm_num [scaleSeq]
  | succ n ih =>
    have hstep : 1 - scaleSeq dt (n + 1) = (1 - scaleSeq dt n) * (1 - dt * 3) := by
      simp only [scaleSeq, scaleStep, scaleTarget, lerp, if_pos]
      ring
    rw [hstep, ih]
    ring

/-- Claim C3 amended: provided the per-tick lerp factor `dt * 3` is at most 1
(true for any realistic frame delta), the scale sequence started at the
epsilon is monotone nondecreasing, never exceeds 1, and tends to 1. -/
theorem claim_C3_amended (dt : ℝ) (h0 : 0 < dt) (h1 : dt * 3 ≤ 1) :
    (∀ n, scaleSeq dt n ≤ scaleSeq dt (n + 1)) ∧
      (∀ n, scaleSeq dt n ≤ 1) ∧
      Filter.Tendsto (scaleSeq dt) Filter.atTop (nhds 1) := by
  have hq0 : (0 : ℝ) ≤ 1 - dt * 3 := by linarith
  have hq1 : 1 - dt * 3 < 1 := by linarith
  have hgap : ∀ n, 0 ≤ 1 - scaleSeq dt n := by
    intro n
    rw [scaleSeq_sub_one]
    have := pow_nonneg hq0 n
    nlinarith
  refine ⟨?_, ?_, ?_⟩
  · intro n
    have hg := hgap n
    simp only [scaleSeq, scaleStep, scaleTarget, lerp, if_pos]
    nlinarith
  · intro n
    have := hgap n
    linarith
  · have h2 : Filter.Tendsto (fun n : ℕ => (1 - dt * 3) ^ n) Filter.atTop (nhds 0) :=
      tendsto_pow_atTop_nhds_zero_of_lt_one hq0 hq1
    have h3 : Filter.Tendsto (fun n : ℕ => 1 - (1 - dt * 3) ^ n * (1 - 0.001))
        Filter.atTop (nhds 1) := by
      have h4 := (h2.mul_const ((1 : ℝ) - 0.001)).const_sub 1
      simpa using h4
    refine h3.congr fun n => ?_
    have := scaleSeq_sub_one dt n
    linarith

/-- Claim C3 witness: the amended statement at the fixed tick `dt = 1/4`. -/
theorem claim_C3_witness :
    scaleSeq (1 / 4) 0 ≤ scaleSeq (1 / 4) 1 ∧ scaleSeq (1 / 4) 3 ≤ 1 ∧
      Filter.Tendsto (scaleSeq (1 / 4)) Filter.atTop (nhds 1) := by
  obtain ⟨ha, hb, hc⟩ := claim_C3_amended (1 / 4) (by norm_num) (by norm_num)
  exact ⟨ha 0, hb 3, hc⟩

/-- Claim C1 counterexample: the generator has no parameter guard — called
with `radius = 0` (and `count = 1`) it does not fail with a configuration
error; it returns an output whose colour channels are all NaN (the factor
`r / radius` is `0 / 0`). -/
theorem claim_C1_counterexample :
    generateGalaxyData 1 zeroRadiusParams drawsZero ≠ none ∧
      generateGalaxyData 1 zeroRadiusParams drawsZero =
        some ⟨[(0, 0, 0)], [(none, none, none)]⟩ := by
  constructor
  · simp [generateGalaxyData]
  · simp [generateGalaxyData, galaxyPosition, galaxyColor, sampleRadius, randomOffset,
      jsDiv, zeroRadiusParams]

/-- Claim C1 amended: a negative `count` does fail fast (the `Float32Array`
constructor throws a RangeError), but a non-positive radius is not guarded:
with `radius = 0` the call returns normally, with every position zero and
every colour channel NaN. -/
theorem claim_C1_amended (count : ℤ) (opts : GalaxyOptions) (draws : ℕ → PointDraws) :
    (count < 0 → generateGalaxyData count opts draws = none) ∧
      (opts.radius = 0 → 0 ≤ count →
        generateGalaxyData count opts draws =
          some ⟨List.replicate count.toNat (0, 0, 0),
                List.replicate count.toNat (none, none, none)⟩) := by
  constructor
  · intro h
    simp [generateGalaxyData, h]
  · intro hR hc
    have hneg : ¬ count < 0 := not_lt.mpr hc
    have hpos : ∀ i ∈ List.range count.toNat,
        galaxyPosition opts i (draws i) = ((0 : ℝ), (0 : ℝ), (0 : ℝ)) := by
      intro i _
      simp [galaxyPosition, sampleRadius, randomOffset, hR]
    have hcol : ∀ i ∈ List.range count.toNat,
        galaxyColor opts (draws i) =
          ((none : Option ℝ), (none : Option ℝ), (none : Option ℝ)) := by
      intro i _
      simp [galaxyColor, sampleRadius, jsDiv, hR]
    simp only [generateGalaxyData, if_neg hneg, Option.some.injEq, GalaxyData.mk.injEq]
    rw [List.map_congr_left hpos, List.map_congr_left hcol]
    simp [List.map_const']

/-- Claim C1 witness: the amended statement at `count = -1` (fails) and at
`count = 2` with the zero-radius parameters (returns NaN colours). -/
theorem claim_C1_witness :
    generateGalaxyData (-1) GALAXY_PARAMS drawsZero = none ∧
      generateGalaxyData 2 zeroRadiusParams drawsZero =
        some ⟨[(0, 0, 0), (0, 0, 0)], [(none, none, none), (none, none, none)]⟩ := by
  refine ⟨(claim_C1_amended (-1) GALAXY_PARAMS drawsZero).1 (by norm_num), ?_⟩
  have h := (claim_C1_amended 2 zeroRadiusParams drawsZero).2 rfl (by norm_num)
  simpa [List.replicate] using h

/-- A list of triples flattened with stride 3 has three entries per element. -/
lemma length_flatten_triples {α β : Type} (f : β → List α) (hf : ∀ x, (f x).length = 3)
    (l : List β) : ((l.map f).flatten).length = 3 * l.length := by
  induction l with
  | nil => simp
  | cons a tl ih =>
    simp only [List.map_cons, List.flatten_cons, List.length_append, List.length_cons, ih, hf]
    omega

/-- Claim C5: for every non-negative count the generator returns exactly
`count` positions and `count` colours (flat arrays of length `count * 3`),
and `count = 0` yields empty collections without error. -/
theorem claim_C5_output_sizes (count : ℤ) (opts : GalaxyOptions) (draws : ℕ → PointDraws)
    (h : 0 ≤ count) :
    ((generateGalaxyData count opts draws).map fun g => g.positions.length)
        = some count.toNat ∧
      ((generateGalaxyData count opts draws).map fun g => g.colors.length)
        = some count.toNat ∧
      ((generateGalaxyData count opts draws).map fun g => g.flatPositions.length)
        = some (3 * count.toNat) ∧
      ((generateGalaxyData count opts draws).map fun g => g.flatColors.length)
        = some (3 * count.toNat) ∧
      (count = 0 → generateGalaxyData count opts draws = some ⟨[], []⟩) := by
  have hneg : ¬ count < 0 := not_lt.mpr h
  refine ⟨?_, ?_, ?_, ?_, ?_⟩
  · simp [generateGalaxyData, hneg]
  · simp [generateGalaxyData, hneg]
  · simp only [generateGalaxyData, if_neg hneg, Option.map_some', Option.some.injEq,
      GalaxyData.flatPositions]
    rw [length_flatten_triples (fun p : ℝ × ℝ × ℝ => [p.1, p.2.1, p.2.2]) fun _ => rfl]
    simp
  · simp only [generateGalaxyData, if_neg hneg, Option.map_some', Option.some.injEq,
      GalaxyData.flatColors]
    rw [length_flatten_triples
      (fun c : Option ℝ × Option ℝ × Option ℝ => [c.1, c.2.1, c.2.2]) fun _ => rfl]
    simp
  · intro h0
    simp [generateGalaxyData, h0]

/-- Claim C5 witness: the sizes at `count = 0`, which also returns the empty
collections. -/
theorem claim_C5_witness :
    ((generateGalaxyData 0 GALAXY_PARAMS drawsZero).map fun g => g.positions.length)
        = some 0 ∧
      generateGalaxyData 0 GALAXY_PARAMS drawsZero = some ⟨[], []⟩ := by
  obtain ⟨h1, _, _, _, h5⟩ := claim_C5_output_sizes 0 GALAXY_PARAMS drawsZero le_rfl
  exact ⟨by simpa using h1, h5 rfl⟩

/-- The jitter keeps a mixed channel within 0.05 of the endpoint colour at the
two interpolation endpoints. -/
lemma mixedChannel_jitter_bound (cIn cOut j : ℝ) (hj0 : 0 ≤ j) (hj1 : j < 1) :
    |mixedChannel cIn cOut 0 j - cIn| ≤ 0.05 ∧ |mixedChannel cIn cOut 1 j - cOut| ≤ 0.05 := by
  constructor <;>
    · simp only [mixedChannel, lerp]
      rw [abs_le]
      constructor <;> nlinarith

/-- Claim C6: for a valid radius every colour is the linear interpolation of
`insideColor` and `outsideColor` with factor `r / radius = uR` plus a
per-channel jitter of amplitude 0.05 centred on zero; at `r = 0` the colour
is within 0.05 per channel of `insideColor`, at `r = radius` within 0.05 of
`outsideColor`. -/
theorem claim_C6_color_mix (opts : GalaxyOptions) (d : PointDraws) (hR : opts.radius ≠ 0)
    (hjr0 : 0 ≤ d.jR) (hjr1 : d.jR < 1) (hjg0 : 0 ≤ d.jG) (hjg1 : d.jG < 1)
    (hjb0 : 0 ≤ d.jB) (hjb1 : d.jB < 1) :
    galaxyColor opts d =
        (some (mixedChannel opts.insideColor.r opts.outsideColor.r d.uR d.jR),
         some (mixedChannel opts.insideColor.g opts.outsideColor.g d.uR d.jG),
         some (mixedChannel opts.insideColor.b opts.outsideColor.b d.uR d.jB)) ∧
      (d.uR = 0 →
        |mixedChannel opts.insideColor.r opts.outsideColor.r d.uR d.jR -
            opts.insideColor.r| ≤ 0.05 ∧
          |mixedChannel opts.insideColor.g opts.outsideColor.g d.uR d.jG -
              opts.insideColor.g| ≤ 0.05 ∧
            |mixedChannel opts.insideColor.b opts.outsideColor.b d.uR d.jB -
                opts.insideColor.b| ≤ 0.05) ∧
      (d.uR = 1 →
        |mixedChannel opts.insideColor.r opts.outsideColor.r d.uR d.jR -
            opts.outsideColor.r| ≤ 0.05 ∧
          |mixedChannel opts.insideColor.g opts.outsideColor.g d.uR d.jG -
              opts.outsideColor.g| ≤ 0.05 ∧
            |mixedChannel opts.insideColor.b opts.outsideColor.b d.uR d.jB -
                opts.outsideColor.b| ≤ 0.05) := by
  refine ⟨?_, ?_, ?_⟩
  · have hdiv : jsDiv (sampleRadius opts d) opts.radius = some d.uR := by
      simp only [jsDiv, if_neg hR, sampleRadius, Option.some.injEq]
      rw [mul_div_assoc, div_self hR, mul_one]
    simp [galaxyColor, hdiv]
  · intro h0
    rw [h0]
    exact ⟨(mixedChannel_jitter_bound _ _ _ hjr0 hjr1).1,
      (mixedChannel_jitter_bound _ _ _ hjg0 hjg1).1,
      (mixedChannel_jitter_bound _ _ _ hjb0 hjb1).1⟩
  · intro h1
    rw [h1]
    exact ⟨(mixedChannel_jitter_bound _ _ _ hjr0 hjr1).2,
      (mixedChannel_jitter_bound _ _ _ hjg0 hjg1).2,
      (mixedChannel_jitter_bound _ _ _ hjb0 hjb1).2⟩

/-- Claim C6 witness: the colour law at GALAXY_PARAMS and the all-zero draw,
whose radial draw is 0, so the colour is within 0.05 per channel of the
inside colour. -/
theorem claim_C6_witness :
    galaxyColor GALAXY_PARAMS (drawsZero 0) =
        (some (mixedChannel GALAXY_PARAMS.insideColor.r GALAXY_PARAMS.outsideColor.r
            (drawsZero 0).uR (drawsZero 0).jR),
         some (mixedChannel GALAXY_PARAMS.insideColor.g GALAXY_PARAMS.outsideColor.g
            (drawsZero 0).uR (drawsZero 0).jG),
         some (mixedChannel GALAXY_PARAMS.insideColor.b GALAXY_PARAMS.outsideColor.b
            (drawsZero 0).uR (drawsZero 0).jB)) ∧
      |mixedChannel GALAXY_PARAMS.insideColor.r GALAXY_PARAMS.outsideColor.r
          (drawsZero 0).uR (drawsZero 0).jR - GALAXY_PARAMS.insideColor.r| ≤ 0.05 := by
  obtain ⟨h1, h2, _⟩ := claim_C6_color_mix GALAXY_PARAMS (drawsZero 0)
    (by norm_num [GALAXY_PARAMS]) le_rfl (by norm_num [drawsZero]) le_rfl
    (by norm_num [drawsZero]) le_rfl (by norm_num [drawsZero])
  exact ⟨h1, (h2 rfl).1⟩

/-- Each axis offset has magnitude at most `randomness * r`: the magnitude draw
in `[0,1)` raised to `randomnessPower` stays in `[0,1]` and the sign draw only
flips the sign. -/
lemma randomOffset_bounds (opts : GalaxyOptions) (u : ℝ) (s : Bool) (r : ℝ)
    (hu0 : 0 ≤ u) (hu1 : u < 1) (hρ : 0 ≤ opts.randomness) (hr : 0 ≤ r) :
    -(opts.randomness * r) ≤ randomOffset opts u s r ∧
      randomOffset opts u s r ≤ opts.randomness * r := by
  have hp0 : 0 ≤ u ^ opts.randomnessPower := pow_nonneg hu0 _
  have hp1 : u ^ opts.randomnessPower ≤ 1 := pow_le_one₀ hu0 hu1.le
  have hbase : 0 ≤ opts.randomness * r := mul_nonneg hρ hr
  have hmain : 0 ≤ u ^ opts.randomnessPower * opts.randomness * r ∧
      u ^ opts.randomnessPower * opts.randomness * r ≤ opts.randomness * r := by
    constructor
    · positivity
    · nlinarith
  cases s <;> simp only [randomOffset, signOf] <;> norm_num <;>
    constructor <;> nlinarith [hmain.1, hmain.2]

set_option maxHeartbeats 1000000 in
/-- Quadratic core of the horizontal bound: a unit vector `(c, s)` scaled by
`r ≤ R` plus two offsets of magnitude at most `ρ * r` stays within
`R * (1 + s2 * ρ)` of the origin, where `s2 ^ 2 = 2` (Cauchy-Schwarz on the
offset pair). -/
lemma horiz_sq_bound (R ρ r c s ox oz s2 : ℝ)
    (hcs : c ^ 2 + s ^ 2 = 1) (hr0 : 0 ≤ r) (hrR : r ≤ R) (hρ : 0 ≤ ρ)
    (hox1 : -(ρ * r) ≤ ox) (hox2 : ox ≤ ρ * r)
    (hoz1 : -(ρ * r) ≤ oz) (hoz2 : oz ≤ ρ * r)
    (hs2 : s2 ^ 2 = 2) (hs2p : 0 ≤ s2) :
    (c * r + ox) ^ 2 + (s * r + oz) ^ 2 ≤ (R * (1 + s2 * ρ)) ^ 2 := by
  have hA2eq : (c * ox + s * oz) ^ 2 + (c * oz - s * ox) ^ 2 = ox ^ 2 + oz ^ 2 := by
    linear_combination (ox ^ 2 + oz ^ 2) * hcs
  have hA2 : (c * ox + s * oz) ^ 2 ≤ ox ^ 2 + oz ^ 2 := by
    linarith [hA2eq, sq_nonneg (c * oz - s * ox)]
  have hoxsq : ox ^ 2 ≤ (ρ * r) ^ 2 := by nlinarith [hox1, hox2]
  have hozsq : oz ^ 2 ≤ (ρ * r) ^ 2 := by nlinarith [hoz1, hoz2]
  have h22 : (s2 * (ρ * r)) ^ 2 = 2 * (ρ * r) ^ 2 := by
    linear_combination (ρ * r) ^ 2 * hs2
  have hA2le : (c * ox + s * oz) ^ 2 ≤ (s2 * (ρ * r)) ^ 2 := by
    linarith [hA2, hoxsq, hozsq, h22]
  have hBpos : 0 ≤ s2 * (ρ * r) := mul_nonneg hs2p (mul_nonneg hρ hr0)
  have hA : c * ox + s * oz ≤ s2 * (ρ * r) := by nlinarith [hA2le, hBpos]
  have t1 : r ^ 2 ≤ R ^ 2 := pow_le_pow_left₀ hr0 hrR 2
  have h2r0 : (0 : ℝ) ≤ 2 * r := by linarith
  have h2rA : 2 * r * (c * ox + s * oz) ≤ 2 * s2 * ρ * r ^ 2 := by
    nlinarith [mul_le_mul_of_nonneg_left hA h2r0]
  have h2rB : 2 * s2 * ρ * r ^ 2 ≤ 2 * s2 * ρ * R ^ 2 := by
    have h0 : (0 : ℝ) ≤ 2 * s2 * ρ := by positivity
    nlinarith [mul_le_mul_of_nonneg_left t1 h0]
  have t3 : (ρ * r) ^ 2 ≤ (ρ * R) ^ 2 :=
    pow_le_pow_left₀ (mul_nonneg hρ hr0) (mul_le_mul_of_nonneg_left hrR hρ) 2
  have hRHS : (R * (1 + s2 * ρ)) ^ 2 = R ^ 2 + 2 * s2 * ρ * R ^ 2 + 2 * (ρ * R) ^ 2 := by
    linear_combination R ^ 2 * ρ ^ 2 * hs2
  have hexp : (c * r + ox) ^ 2 + (s * r + oz) ^ 2
      = (c ^ 2 + s ^ 2) * r ^ 2 + 2 * r * (c * ox + s * oz) + (ox ^ 2 + oz ^ 2) := by
    ring
  rw [hexp, hRHS, hcs, one_mul]
  linarith [t1, h2rA, h2rB, hoxsq, hozsq, t3]

/-- Horizontal-plane bound for a single generated point: its distance from the
origin is at most `radius * (1 + √2 * randomness)` — the x and z offsets can
combine diagonally, so the factor is `√2 * randomness`, not `randomness`. -/
lemma galaxyPosition_horizontal_le (opts : GalaxyOptions) (i : ℕ) (d : PointDraws)
    (hR : 0 ≤ opts.radius) (hρ : 0 ≤ opts.randomness) (hd : d.Valid) :
    Real.sqrt ((galaxyPosition opts i d).1 ^ 2 + (galaxyPosition opts i d).2.2 ^ 2)
      ≤ opts.radius * (1 + Real.sqrt 2 * opts.randomness) := by
  obtain ⟨huR, huX, huY, huZ, _, _, _⟩ := hd
  have hr0 : 0 ≤ sampleRadius opts d := mul_nonneg huR.1 hR
  have hrR : sampleRadius opts d ≤ opts.radius := mul_le_of_le_one_left hR huR.2.le
  obtain ⟨hox1, hox2⟩ := randomOffset_bounds opts d.uX d.sX _ huX.1 huX.2 hρ hr0
  obtain ⟨hoz1, hoz2⟩ := randomOffset_bounds opts d.uZ d.sZ _ huZ.1 huZ.2 hρ hr0
  have hsq := horiz_sq_bound opts.radius opts.randomness (sampleRadius opts d)
    (Real.cos (pointAngle opts i d)) (Real.sin (pointAngle opts i d))
    (randomOffset opts d.uX d.sX (sampleRadius opts d))
    (randomOffset opts d.uZ d.sZ (sampleRadius opts d)) (Real.sqrt 2)
    (Real.cos_sq_add_sin_sq _) hr0 hrR hρ hox1 hox2 hoz1 hoz2
    (Real.sq_sqrt (by norm_num)) (Real.sqrt_nonneg 2)
  have hBig : 0 ≤ opts.radius * (1 + Real.sqrt 2 * opts.randomness) := by positivity
  simp only [galaxyPosition]
  exact le_trans (Real.sqrt_le_sqrt hsq) (le_of_eq (Real.sqrt_sq hBig))

/-- Claim C2 counterexample: the bound `R * (1 + ρ)` fails. With GALAXY_PARAMS
(`count = 100`, `radius = 5`, `randomness = 0.2`) there is a draw stream for
which the generated point of index 1 sits at total angle `9π/4` (so its cosine
and sine are both `√2/2`) with `r = 19π/12 ≈ 4.97`, and both horizontal
offsets push outward; its horizontal distance exceeds `6 = 5 * 1.2`. -/
theorem claim_C2_counterexample :
    (cexDraws 1).Valid ∧
      ((generateGalaxyData 100 GALAXY_PARAMS cexDraws).map fun g => g.positions[1]?)
        = some (some (galaxyPosition GALAXY_PARAMS 1 (cexDraws 1))) ∧
      GALAXY_PARAMS.radius * (1 + GALAXY_PARAMS.randomness) <
        Real.sqrt ((galaxyPosition GALAXY_PARAMS 1 (cexDraws 1)).1 ^ 2 +
          (galaxyPosition GALAXY_PARAMS 1 (cexDraws 1)).2.2 ^ 2) := by
  have hpi_hi : Real.pi < 3.15 := Real.pi_lt_d2
  have hpi_lo : (3.141592 : ℝ) < Real.pi := Real.pi_gt_d6
  refine ⟨?_, ?_, ?_⟩
  · have h1 : (0 : ℝ) ≤ 19 * Real.pi / 60 := by positivity
    have h2 : 19 * Real.pi / 60 < 1 := by linarith
    simp only [PointDraws.Valid, unit01, cexDraws]
    norm_num [h1, h2]
  · have h100 : ¬ (100 : ℤ) < 0 := by norm_num
    simp [generateGalaxyData, h100, List.getElem?_map, List.getElem?_range]
  · have hang : pointAngle GALAXY_PARAMS 1 (cexDraws 1) = Real.pi / 4 + 2 * Real.pi := by
      simp only [pointAngle, branchAngle, sampleRadius, cexDraws, GALAXY_PARAMS]
      norm_num
      ring
    have hcos : Real.cos (pointAngle GALAXY_PARAMS 1 (cexDraws 1)) = Real.sqrt 2 / 2 := by
      rw [hang, Real.cos_add_two_pi, Real.cos_pi_div_four]
    have hsin : Real.sin (pointAngle GALAXY_PARAMS 1 (cexDraws 1)) = Real.sqrt 2 / 2 := by
      rw [hang, Real.sin_add_two_pi, Real.sin_pi_div_four]
    have hs2 : (1.414213 : ℝ) < Real.sqrt 2 :=
      (Real.lt_sqrt (by norm_num)).mpr (by norm_num)
    have hs2p : (0 : ℝ) ≤ Real.sqrt 2 := Real.sqrt_nonneg 2
    have hR47 : (4.974 : ℝ) < 19 * Real.pi / 60 * 5 := by linarith
    have hbound : GALAXY_PARAMS.radius * (1 + GALAXY_PARAMS.randomness) = (6 : ℝ) := by
      norm_num [GALAXY_PARAMS]
    rw [hbound, Real.lt_sqrt (by norm_num)]
    simp only [galaxyPosition]
    rw [hcos, hsin]
    have hr : sampleRadius GALAXY_PARAMS (cexDraws 1) = 19 * Real.pi / 60 * 5 := rfl
    rw [hr]
    simp only [randomOffset, signOf, cexDraws, GALAXY_PARAMS]
    norm_num
    have hxlo : (4.45 : ℝ) <
        Real.sqrt 2 / 2 * (19 * Real.pi / 60 * 5)
          + 0.98 ^ 3 * 0.2 * (19 * Real.pi / 60 * 5) := by
      nlinarith [hs2, hR47]
    nlinarith [hxlo]

/-- Claim C2 amended: for nonnegative radius and randomness and valid draws,
every generated point's horizontal-plane distance from the origin is at most
`radius * (1 + √2 * randomness)` (the `√2` accounts for the two independent
horizontal offsets; the claimed factor `1 + randomness` is refuted above). -/
theorem claim_C2_amended (count : ℤ) (opts : GalaxyOptions) (draws : ℕ → PointDraws)
    (hR : 0 ≤ opts.radius) (hρ : 0 ≤ opts.randomness) (hd : ∀ i, (draws i).Valid) :
    ∀ g, generateGalaxyData count opts draws = some g →
      ∀ p ∈ g.positions,
        Real.sqrt (p.1 ^ 2 + p.2.2 ^ 2)
          ≤ opts.radius * (1 + Real.sqrt 2 * opts.randomness) := by
  intro g hg p hp
  by_cases hc : count < 0
  · simp [generateGalaxyData, hc] at hg
  · simp only [generateGalaxyData, if_neg hc, Option.some.injEq] at hg
    subst hg
    obtain ⟨i, _, rfl⟩ := List.mem_map.mp hp
    exact galaxyPosition_horizontal_le opts i (draws i) hR hρ (hd i)

/-- Claim C2 witness: the amended bound at GALAXY_PARAMS, `count = 1` and the
all-zero draw stream. -/
theorem claim_C2_witness :
    Real.sqrt ((galaxyPosition GALAXY_PARAMS 0 (drawsZero 0)).1 ^ 2 +
        (galaxyPosition GALAXY_PARAMS 0 (drawsZero 0)).2.2 ^ 2)
      ≤ GALAXY_PARAMS.radius * (1 + Real.sqrt 2 * GALAXY_PARAMS.randomness) := by
  have hval : ∀ i, (drawsZero i).Valid := by
    intro i
    simp [PointDraws.Valid, unit01, drawsZero]
  have hg : generateGalaxyData 1 GALAXY_PARAMS drawsZero =
      some ⟨[galaxyPosition GALAXY_PARAMS 0 (drawsZero 0)],
            [galaxyColor GALAXY_PARAMS (drawsZero 0)]⟩ := rfl
  exact claim_C2_amended 1 GALAXY_PARAMS drawsZero (by norm_num [GALAXY_PARAMS])
    (by norm_num [GALAXY_PARAMS]) hval _ hg _ (by simp)

end

end Scene
